import Mathlib

/-
Shallow embedding of the FuelFaaS anomaly-detection core:
  src/backend/fraud_rules.py  (rule library R1..R9 and the haversine distance),
  src/backend/engine.py       (AnomalyEngine.check_transaction orchestration),
  src/backend/config.py       (business-logic settings defaults).

Conventions of the embedding:
* Python naive datetimes are modelled as rational seconds since the epoch
  (proleptic Gregorian calendar with no leap seconds, so chronological order,
  day boundaries, weekday and time-of-day are all derivable from that single
  number; 1970-01-01 is day 0 and was a Thursday, Python weekday() 3).
* Python floats are modelled as rationals where only field arithmetic and
  comparisons occur (liters, prices, timestamps), and as real numbers where
  the trigonometric haversine distance is involved (coordinates, distances).
* Reason strings built with f-string interpolation are modelled by the
  inductive type Reason: one constructor per textual message in the source,
  carrying exactly the values the source interpolates (numeric formatting
  such as :.1f is abstracted to the interpolated value itself).
* Python falsiness of optional strings (None or "") is modelled explicitly
  wherever the source tests truthiness rather than presence.
-/

namespace FuelFaaS

abbrev Datetime := ℚ

namespace Datetime

/-- Model of the date() of a datetime: the absolute day index, days since the epoch. -/
def dateIdx (t : Datetime) : ℤ := ⌊t / 86400⌋

/-- Model of replace(hour=0, minute=0, second=0, microsecond=0): midnight of the same day. -/
def midnight (t : Datetime) : Datetime := 86400 * (dateIdx t : ℚ)

/-- Model of the time() of a datetime, as seconds since midnight. -/
def timeOfDay (t : Datetime) : ℚ := t - midnight t

/-- Model of the hour attribute of a datetime. -/
def hour (t : Datetime) : ℤ := ⌊timeOfDay t / 3600⌋

/-- Model of weekday(): Monday = 0, ..., Sunday = 6; day 0 (1970-01-01) was a Thursday. -/
def weekday (t : Datetime) : ℤ := (dateIdx t + 3) % 7

/-- Model of (t1 - t2).total_seconds(). -/
def diffSeconds (t1 t2 : Datetime) : ℚ := t1 - t2

end Datetime

/-- One constructor per reason message produced by the rule library, carrying the
values the corresponding f-string interpolates. -/
inductive Reason where
  | outOfHoursDefault
  | outOfHoursSchedule (scheduleStart scheduleEnd : String)
  | geofence (distance : ℝ) (maxAllowed : ℚ) (projectName : Option String)
  | tankCapacity (liters tankCapacity : ℚ)
  | vehicleInactive
  | doubleDipping (thresholdMinutes : ℕ)
  | priceAboveMarket (price deviation : ℚ)
  | priceBelowMarket (price deviation : ℚ)
  | frequency (count maxPerDay : ℕ)
  | weekend (weekdayIdx : ℤ)
  | holiday (dayIdx : ℤ)
  | simultaneousTransactions (distanceKm : ℝ)
  | impossibleTravel (distanceKm : ℝ) (hours : ℚ) (requiredSpeed : ℝ)

/-- The (is_violation, reason, score) triple every rule in fraud_rules.py returns. -/
structure RuleResult where
  is_violation : Bool
  reason : Option Reason
  score : ℕ

/-- Truthiness test of an optional string in Python: None and the empty string are falsy. -/
def strFalsy : Option String → Bool
  | none => true
  | some s => s == ""

/-- Split a character list at every colon, the grouping part of strptime with format H:M. -/
def splitOnColon : List Char → List (List Char)
  | [] => [[]]
  | c :: rest =>
    let r := splitOnColon rest
    if c = ':' then [] :: r
    else
      match r with
      | [] => [[c]]
      | g :: gs => (c :: g) :: gs

/-- Numeric value of a list of decimal digit characters. -/
def digitsVal (cs : List Char) : ℕ := cs.foldl (fun a c => 10 * a + (c.toNat - 48)) 0

/-- Model of datetime.strptime(s, H:M format).time(), returned as seconds since
midnight: the whole string must be one or two digits, a colon, and one or two
digits, with hour at most 23 and minute at most 59; anything else raises
ValueError in Python, modelled as none. -/
def parseHHMM (s : String) : Option ℚ :=
  match splitOnColon s.toList with
  | [h, m] =>
    if 1 ≤ h.length ∧ h.length ≤ 2 ∧ h.all Char.isDigit
        ∧ 1 ≤ m.length ∧ m.length ≤ 2 ∧ m.all Char.isDigit then
      let hv := digitsVal h
      let mv := digitsVal m
      if hv ≤ 23 ∧ mv ≤ 59 then some ((3600 * hv + 60 * mv : ℕ) : ℚ) else none
    else none
  | _ => none

/-- Embedding of fraud_rules.check_out_of_hours (rule R1). -/
def check_out_of_hours (transaction_time : Datetime)
    (worker_schedule_start worker_schedule_end : Option String) : RuleResult :=
  if strFalsy worker_schedule_start || strFalsy worker_schedule_end then
    -- No schedule defined, use broad construction hours (6 AM - 7 PM)
    if Datetime.hour transaction_time < 6 ∨ 19 ≤ Datetime.hour transaction_time then
      ⟨true, some .outOfHoursDefault, 25⟩
    else ⟨false, none, 0⟩
  else
    match worker_schedule_start, worker_schedule_end with
    | some s, some e =>
      match parseHHMM s, parseHHMM e with
      | some start_time, some end_time =>
        let current_time := Datetime.timeOfDay transaction_time
        if ¬ (start_time ≤ current_time ∧ current_time ≤ end_time) then
          ⟨true, some (.outOfHoursSchedule s e), 30⟩
        else ⟨false, none, 0⟩
      | _, _ =>
        -- Invalid schedule format: the ValueError is caught and the rule falls through
        ⟨false, none, 0⟩
    | _, _ => ⟨false, none, 0⟩

/-- Degrees to radians, the math.radians conversion. -/
noncomputable def radians (x : ℝ) : ℝ := x * (Real.pi / 180)

/-- Embedding of fraud_rules.haversine: great-circle distance in kilometers between
two points on the earth, specified in decimal degrees. -/
noncomputable def haversine (lon1 lat1 lon2 lat2 : ℝ) : ℝ :=
  let lon1 := radians lon1
  let lat1 := radians lat1
  let lon2 := radians lon2
  let lat2 := radians lat2
  let dlon := lon2 - lon1
  let dlat := lat2 - lat1
  let a := Real.sin (dlat / 2) ^ 2
      + Real.cos lat1 * Real.cos lat2 * Real.sin (dlon / 2) ^ 2
  let c := 2 * Real.arcsin (Real.sqrt a)
  let r : ℝ := 6371
  c * r

open Classical in
/-- Embedding of fraud_rules.check_geofence_violation (rule R2). -/
noncomputable def check_geofence_violation (station_lat station_lon : ℝ)
    (project_lat project_lon : Option ℝ) (geofence_radius_km : Option ℚ)
    (project_name : Option String) (buffer_km : ℚ := 15) : RuleResult :=
  match project_lat, project_lon, geofence_radius_km with
  | some plat, some plon, some radius =>
    let distance := haversine station_lon station_lat plon plat
    let max_allowed : ℚ := radius + buffer_km
    if distance > (max_allowed : ℝ) then
      ⟨true, some (.geofence distance max_allowed project_name), 40⟩
    else ⟨false, none, 0⟩
  | _, _, _ => ⟨false, none, 0⟩

/-- Embedding of fraud_rules.check_tank_capacity_violation (rule R3). -/
def check_tank_capacity_violation (liters : ℚ) (tank_capacity : Option ℚ) : RuleResult :=
  match tank_capacity with
  | none => ⟨false, none, 0⟩
  | some cap =>
    -- Allow 5% tolerance for measurement variance
    let max_allowed := cap * 1.05
    if liters > max_allowed then
      ⟨true, some (.tankCapacity liters cap), 40⟩
    else ⟨false, none, 0⟩

/-- Embedding of fraud_rules.check_vehicle_inactive (rule R4). -/
def check_vehicle_inactive (vehicle_status : Option String) : RuleResult :=
  if vehicle_status = some "inactive" then
    ⟨true, some .vehicleInactive, 25⟩
  else ⟨false, none, 0⟩

/-- Embedding of fraud_rules.check_double_dipping (rule R5); the first-match loop of
the source is an existence test over the list, with a reason independent of the match. -/
def check_double_dipping (transaction_time : Datetime)
    (recent_transactions : List Datetime) (threshold_minutes : ℕ := 30) : RuleResult :=
  if recent_transactions.any (fun recent_time =>
      decide (|Datetime.diffSeconds transaction_time recent_time / 60|
        < (threshold_minutes : ℚ))) then
    ⟨true, some (.doubleDipping threshold_minutes), 35⟩
  else ⟨false, none, 0⟩

/-- Embedding of fraud_rules.check_price_anomaly (rule R6). -/
def check_price_anomaly (price_per_liter : ℚ) (market_average : Option ℚ := none)
    (threshold_percent : ℚ := 20) : RuleResult :=
  -- If no market average, use a reasonable estimate for Swedish diesel/petrol
  let market_average := market_average.getD 18
  let deviation := |price_per_liter - market_average| / market_average * 100
  if deviation > threshold_percent then
    if price_per_liter > market_average then
      ⟨true, some (.priceAboveMarket price_per_liter deviation), 20⟩
    else
      ⟨true, some (.priceBelowMarket price_per_liter deviation), 30⟩
  else ⟨false, none, 0⟩

/-- Embedding of fraud_rules.check_transaction_frequency (rule R7). -/
def check_transaction_frequency (transaction_date : Datetime)
    (recent_transaction_dates : List Datetime) (max_per_day : ℕ := 2) : RuleResult :=
  let same_day_count := recent_transaction_dates.countP (fun tx_date =>
    decide (Datetime.dateIdx tx_date = Datetime.dateIdx transaction_date))
  if same_day_count ≥ max_per_day then
    ⟨true, some (.frequency (same_day_count + 1) max_per_day), 30⟩
  else ⟨false, none, 0⟩

/-- Embedding of fraud_rules.check_weekend_holiday (rule R8); the holidays loop of the
source is an existence test, and the Python truthiness test of the list coincides with
the emptiness of the default. -/
def check_weekend_holiday (transaction_time : Datetime)
    (holidays : Option (List Datetime) := none) : RuleResult :=
  -- Check weekend (Saturday=5, Sunday=6)
  if Datetime.weekday transaction_time ≥ 5 then
    ⟨true, some (.weekend (Datetime.weekday transaction_time)), 20⟩
  else if (holidays.getD []).any (fun holiday =>
      decide (Datetime.dateIdx transaction_time = Datetime.dateIdx holiday)) then
    ⟨true, some (.holiday (Datetime.dateIdx transaction_time)), 25⟩
  else ⟨false, none, 0⟩

open Classical in
/-- Embedding of fraud_rules.check_consecutive_locations (rule R9). -/
noncomputable def check_consecutive_locations (current_lat current_lon : ℝ)
    (current_time : Datetime) (previous_lat previous_lon : Option ℝ)
    (previous_time : Option Datetime) (max_speed_kmh : ℝ := 120) : RuleResult :=
  match previous_lat, previous_lon, previous_time with
  | some plat, some plon, some ptime =>
    let distance_km := haversine plon plat current_lon current_lat
    let time_diff_hours : ℚ := |Datetime.diffSeconds current_time ptime| / 3600
    if time_diff_hours = 0 then
      -- Simultaneous transactions at different locations (more than 1km apart)
      if distance_km > 1 then
        ⟨true, some (.simultaneousTransactions distance_km), 45⟩
      else ⟨false, none, 0⟩
    else
      let required_speed := distance_km / (time_diff_hours : ℝ)
      if required_speed > max_speed_kmh then
        ⟨true, some (.impossibleTravel distance_km time_diff_hours required_speed), 35⟩
      else ⟨false, none, 0⟩
  | _, _, _ => ⟨false, none, 0⟩

/-- The business-logic block of config.py Settings, with its field defaults. -/
structure Settings where
  max_transactions_per_day_per_vehicle : ℕ := 3
  price_anomaly_threshold_percent : ℚ := 20
  double_dip_minutes : ℕ := 30
  geofence_buffer_km : ℚ := 15

/-- The module-level settings instance of config.py, all defaults. -/
def settings : Settings := {}

/-- The fields of models.FuelTransaction the engine reads. -/
structure FuelTransaction where
  transaction_id : String
  vehicle_id : String
  driver_id : Option String
  timestamp : Datetime
  liters : ℚ
  price_per_liter : ℚ
  station_lat : ℝ
  station_lon : ℝ

/-- The fields of models.Vehicle the engine reads. -/
structure Vehicle where
  tank_capacity_liters : ℚ
  assigned_to_project : Option String
  status : String

/-- The fields of models.Project the engine reads. -/
structure Project where
  name : String
  geofence_lat : ℝ
  geofence_lon : ℝ
  geofence_radius_km : ℚ

/-- The fields of models.Worker the engine reads. -/
structure Worker where
  schedule_start : String
  schedule_end : String

/-- The fields of db_models.TransactionDB the engine reads from history rows. -/
structure TransactionDB where
  transaction_id : String
  vehicle_id : String
  timestamp : Datetime
  station_lat : ℝ
  station_lon : ℝ

/-- The AnomalyEngine state: the three in-memory entity maps and the optional
database session, modelled as the list of stored transaction rows. -/
structure AnomalyEngine where
  vehicles : String → Option Vehicle
  projects : String → Option Project
  workers : String → Option Worker
  db_session : Option (List TransactionDB)

/-- Embedding of AnomalyEngine.get_recent_transactions, applied to the session rows:
same vehicle, timestamp at least since, the excluded id filtered out only when the
exclude argument is truthy, ordered by descending timestamp. -/
def get_recent_transactions (db : List TransactionDB) (vehicle_id : String)
    (since : Datetime) (exclude_transaction_id : Option String) : List TransactionDB :=
  let rows := db.filter (fun r =>
    r.vehicle_id == vehicle_id && decide (since ≤ r.timestamp))
  let rows :=
    match exclude_transaction_id with
    | some e => if e = "" then rows else rows.filter (fun r => r.transaction_id != e)
    | none => rows
  rows.mergeSort (fun a b => decide (b.timestamp ≤ a.timestamp))

/-- The fields of models.AnomalyResult that check_transaction populates; the reasons
are the optional reason values appended for each triggered rule. -/
structure AnomalyResult where
  transaction_id : String
  is_anomalous : Bool
  severity : String
  risk_score : ℕ
  reasons : List (Option Reason)

/-- Embedding of AnomalyEngine._calculate_severity. -/
def calculate_severity (score : ℕ) : String :=
  if score ≥ 71 then "Critical"
  else if score ≥ 41 then "High"
  else if score ≥ 21 then "Medium"
  else if score > 0 then "Low"
  else "Low"

namespace AnomalyEngine

/-- Vehicle resolution in check_transaction: self.vehicles.get(transaction.vehicle_id). -/
def resolved_vehicle (e : AnomalyEngine) (tx : FuelTransaction) : Option Vehicle :=
  e.vehicles tx.vehicle_id

/-- Project resolution in check_transaction: looked up only when the vehicle is present
and its assigned_to_project is truthy. -/
def resolved_project (e : AnomalyEngine) (tx : FuelTransaction) : Option Project :=
  match resolved_vehicle e tx with
  | some v =>
    match v.assigned_to_project with
    | some pid => if pid = "" then none else e.projects pid
    | none => none
  | none => none

/-- Worker resolution in check_transaction: looked up only when driver_id is truthy. -/
def resolved_worker (e : AnomalyEngine) (tx : FuelTransaction) : Option Worker :=
  match tx.driver_id with
  | some did => if did = "" then none else e.workers did
  | none => none

/-- Rule 1 call site of check_transaction: out-of-hours fueling. -/
def rule1 (e : AnomalyEngine) (tx : FuelTransaction) : RuleResult :=
  check_out_of_hours tx.timestamp
    ((resolved_worker e tx).map Worker.schedule_start)
    ((resolved_worker e tx).map Worker.schedule_end)

/-- Rule 2 call site of check_transaction: outside project geofence. -/
noncomputable def rule2 (e : AnomalyEngine) (tx : FuelTransaction) : RuleResult :=
  check_geofence_violation tx.station_lat tx.station_lon
    ((resolved_project e tx).map Project.geofence_lat)
    ((resolved_project e tx).map Project.geofence_lon)
    ((resolved_project e tx).map Project.geofence_radius_km)
    ((resolved_project e tx).map Project.name)
    settings.geofence_buffer_km

/-- Rule 3 call site of check_transaction: impossible fuel volume. -/
def rule3 (e : AnomalyEngine) (tx : FuelTransaction) : RuleResult :=
  check_tank_capacity_violation tx.liters
    ((resolved_vehicle e tx).map Vehicle.tank_capacity_liters)

/-- Rule 4 call site of check_transaction: vehicle inactive status. -/
def rule4 (e : AnomalyEngine) (tx : FuelTransaction) : RuleResult :=
  check_vehicle_inactive ((resolved_vehicle e tx).map Vehicle.status)

/-- The lookback fetch of check_transaction: transactions of the same vehicle since
timestamp minus the double-dip window, excluding the transaction itself. -/
def lookback_txs (tx : FuelTransaction) (db : List TransactionDB) : List TransactionDB :=
  get_recent_transactions db tx.vehicle_id
    (tx.timestamp - (settings.double_dip_minutes : ℚ) * 60)
    (some tx.transaction_id)

/-- Rule 5 call site of check_transaction: double-dipping. -/
def rule5 (tx : FuelTransaction) (db : List TransactionDB) : RuleResult :=
  check_double_dipping tx.timestamp
    ((lookback_txs tx db).map TransactionDB.timestamp)
    settings.double_dip_minutes

/-- Rule 6 call site of check_transaction: price anomaly, with no market average. -/
def rule6 (tx : FuelTransaction) : RuleResult :=
  check_price_anomaly tx.price_per_liter none
    settings.price_anomaly_threshold_percent

/-- The day-scoped fetch of check_transaction: transactions of the same vehicle since
midnight of the timestamp, excluding the transaction itself. -/
def daily_txs (tx : FuelTransaction) (db : List TransactionDB) : List TransactionDB :=
  get_recent_transactions db tx.vehicle_id
    (Datetime.midnight tx.timestamp)
    (some tx.transaction_id)

/-- Rule 7 call site of check_transaction: transaction frequency. -/
def rule7 (tx : FuelTransaction) (db : List TransactionDB) : RuleResult :=
  check_transaction_frequency tx.timestamp
    ((daily_txs tx db).map TransactionDB.timestamp)
    settings.max_transactions_per_day_per_vehicle

/-- Rule 8 call site of check_transaction: weekend or holiday, with no holidays loaded. -/
def rule8 (tx : FuelTransaction) : RuleResult :=
  check_weekend_holiday tx.timestamp none

/-- Rule 9 call site of check_transaction: consecutive locations, evaluated against the
most recent entry of the lookback fetch; when that fetch is empty the source skips the
rule entirely, which contributes neither score nor reason, the same as a non-violation. -/
noncomputable def rule9 (tx : FuelTransaction) (db : List TransactionDB) : RuleResult :=
  match lookback_txs tx db with
  | [] => ⟨false, none, 0⟩
  | latest_tx :: _ =>
    check_consecutive_locations tx.station_lat tx.station_lon tx.timestamp
      (some latest_tx.station_lat) (some latest_tx.station_lon)
      (some latest_tx.timestamp) 120

/-- Embedding of AnomalyEngine.check_transaction: the sequential accumulation of
reasons and score over rules R1 to R4, then R5 to R9 only when a database session is
present, followed by severity derivation and the final result construction. -/
noncomputable def check_transaction (e : AnomalyEngine) (tx : FuelTransaction) :
    AnomalyResult :=
  let reasons : List (Option Reason) := []
  let score : ℕ := 0
  let r1 := rule1 e tx
  let reasons := if r1.is_violation then reasons ++ [r1.reason] else reasons
  let score := if r1.is_violation then score + r1.score else score
  let r2 := rule2 e tx
  let reasons := if r2.is_violation then reasons ++ [r2.reason] else reasons
  let score := if r2.is_violation then score + r2.score else score
  let r3 := rule3 e tx
  let reasons := if r3.is_violation then reasons ++ [r3.reason] else reasons
  let score := if r3.is_violation then score + r3.score else score
  let r4 := rule4 e tx
  let reasons := if r4.is_violation then reasons ++ [r4.reason] else reasons
  let score := if r4.is_violation then score + r4.score else score
  let sr : ℕ × List (Option Reason) :=
    match e.db_session with
    | none => (score, reasons)
    | some db =>
      let r5 := rule5 tx db
      let reasons := if r5.is_violation then reasons ++ [r5.reason] else reasons
      let score := if r5.is_violation then score + r5.score else score
      let r6 := rule6 tx
      let reasons := if r6.is_violation then reasons ++ [r6.reason] else reasons
      let score := if r6.is_violation then score + r6.score else score
      let r7 := rule7 tx db
      let reasons := if r7.is_violation then reasons ++ [r7.reason] else reasons
      let score := if r7.is_violation then score + r7.score else score
      let r8 := rule8 tx
      let reasons := if r8.is_violation then reasons ++ [r8.reason] else reasons
      let score := if r8.is_violation then score + r8.score else score
      let r9 := rule9 tx db
      let reasons := if r9.is_violation then reasons ++ [r9.reason] else reasons
      let score := if r9.is_violation then score + r9.score else score
      (score, reasons)
  { transaction_id := tx.transaction_id
    is_anomalous := decide (sr.1 > 20)
    severity := calculate_severity sr.1
    risk_score := min sr.1 100
    reasons := sr.2 }

/-- The rule verdicts of one check_transaction evaluation, listed in the fixed source
evaluation order R1..R9; with no database session only R1..R4 are evaluated. -/
noncomputable def rule_results (e : AnomalyEngine) (tx : FuelTransaction) :
    List RuleResult :=
  [rule1 e tx, rule2 e tx, rule3 e tx, rule4 e tx] ++
    match e.db_session with
    | none => []
    | some db => [rule5 tx db, rule6 tx, rule7 tx db, rule8 tx, rule9 tx db]

/-- The unclamped raw total: the sum of the scores of the triggered rules. -/
noncomputable def raw_total (e : AnomalyEngine) (tx : FuelTransaction) : ℕ :=
  ((rule_results e tx).map (fun r => if r.is_violation then r.score else 0)).sum

end AnomalyEngine

/-
Helper lemmas shared by the claim theorems below.
-/

namespace AnomalyEngine

/-- One accumulation step of the score in check_transaction. -/
def stepScore (s : ℕ) (r : RuleResult) : ℕ := if r.is_violation then s + r.score else s

/-- One accumulation step of the reasons in check_transaction. -/
def stepReasons (acc : List (Option Reason)) (r : RuleResult) : List (Option Reason) :=
  if r.is_violation then acc ++ [r.reason] else acc

theorem foldl_stepScore (l : List RuleResult) (s : ℕ) :
    l.foldl stepScore s = s + (l.map (fun r => if r.is_violation then r.score else 0)).sum := by
  induction l generalizing s with
  | nil => simp
  | cons h t ih =>
    simp only [List.foldl_cons, List.map_cons, List.sum_cons, ih, stepScore]
    by_cases hv : h.is_violation
    · simp only [hv, if_true]
      omega
    · simp only [hv, if_false, Bool.false_eq_true]
      omega

theorem foldl_stepReasons (l : List RuleResult) (acc : List (Option Reason)) :
    l.foldl stepReasons acc =
      acc ++ (l.filter (fun r => r.is_violation)).map (fun r => r.reason) := by
  induction l generalizing acc with
  | nil => simp
  | cons h t ih =>
    simp only [List.foldl_cons, List.filter_cons, stepReasons]
    by_cases hv : h.is_violation <;> simp [hv, ih]

/-- The closed form of check_transaction: every field is determined by the ordered
rule verdicts, with the raw total clamped only in the reported score. -/
theorem check_transaction_eq (e : AnomalyEngine) (tx : FuelTransaction) :
    check_transaction e tx =
      { transaction_id := tx.transaction_id
        is_anomalous := decide (raw_total e tx > 20)
        severity := calculate_severity (raw_total e tx)
        risk_score := min (raw_total e tx) 100
        reasons := ((rule_results e tx).filter (fun r => r.is_violation)).map
          (fun r => r.reason) } := by
  obtain ⟨v, p, w, hist⟩ := e
  cases hist with
  | none =>
    have h1 : raw_total ⟨v, p, w, none⟩ tx =
        List.foldl stepScore 0 (rule_results ⟨v, p, w, none⟩ tx) := by
      rw [foldl_stepScore, Nat.zero_add]; rfl
    have h2 : ((rule_results ⟨v, p, w, none⟩ tx).filter (fun r => r.is_violation)).map
          (fun r => r.reason) =
        List.foldl stepReasons [] (rule_results ⟨v, p, w, none⟩ tx) := by
      rw [foldl_stepReasons]; rfl
    rw [h1, h2]
    rfl
  | some db =>
    have h1 : raw_total ⟨v, p, w, some db⟩ tx =
        List.foldl stepScore 0 (rule_results ⟨v, p, w, some db⟩ tx) := by
      rw [foldl_stepScore, Nat.zero_add]; rfl
    have h2 : ((rule_results ⟨v, p, w, some db⟩ tx).filter (fun r => r.is_violation)).map
          (fun r => r.reason) =
        List.foldl stepReasons [] (rule_results ⟨v, p, w, some db⟩ tx) := by
      rw [foldl_stepReasons]; rfl
    rw [h1, h2]
    rfl

end AnomalyEngine

open AnomalyEngine in
/-- C1: for every transaction evaluated by the engine, the risk_score of the
returned result equals min(raw_total, 100), hence is always at most 100 (and at
least 0 since scores are natural numbers), and is_anomalous holds exactly when the
unclamped raw total, the sum of the scores of the triggered rules, exceeds 20 —
independent of the clamping. -/
theorem risk_score_clamped_and_anomaly_threshold
    (e : AnomalyEngine) (tx : FuelTransaction) :
    (check_transaction e tx).risk_score = min (raw_total e tx) 100
    ∧ (check_transaction e tx).risk_score ≤ 100
    ∧ ((check_transaction e tx).is_anomalous = true ↔ 20 < raw_total e tx) := by
  rw [check_transaction_eq]
  exact ⟨rfl, min_le_right _ _, by simp⟩

open AnomalyEngine in
/-- C2: the severity of every engine result is derived from the unclamped raw total,
and the severity boundaries of calculate_severity are exact: 0 and 1 to 20 give Low,
21 to 40 give Medium, 41 to 70 give High, and 71 or more give Critical. -/
theorem severity_pure_function_of_unclamped_raw
    (e : AnomalyEngine) (tx : FuelTransaction) :
    (check_transaction e tx).severity = calculate_severity (raw_total e tx)
    ∧ calculate_severity 0 = "Low"
    ∧ (∀ m : Fin 20, calculate_severity (m.val + 1) = "Low")
    ∧ (∀ m : Fin 20, calculate_severity (21 + m.val) = "Medium")
    ∧ (∀ m : Fin 30, calculate_severity (41 + m.val) = "High")
    ∧ (∀ m : ℕ, calculate_severity (71 + m) = "Critical") := by
  refine ⟨by rw [check_transaction_eq], by decide, by decide, by decide, by decide, ?_⟩
  intro m
  unfold calculate_severity
  rw [if_pos (by omega)]

open AnomalyEngine in
/-- C5: when no database session is supplied, the engine evaluates exactly rules
R1 to R4: the verdict list is those four verdicts, the raw total is the sum of the
triggered scores among those four only, and the reasons come from those four only. -/
theorem no_history_evaluates_only_first_four_rules
    (v : String → Option Vehicle) (p : String → Option Project)
    (w : String → Option Worker) (tx : FuelTransaction) :
    rule_results ⟨v, p, w, none⟩ tx =
      [rule1 ⟨v, p, w, none⟩ tx, rule2 ⟨v, p, w, none⟩ tx,
        rule3 ⟨v, p, w, none⟩ tx, rule4 ⟨v, p, w, none⟩ tx]
    ∧ raw_total ⟨v, p, w, none⟩ tx =
        (if (rule1 ⟨v, p, w, none⟩ tx).is_violation then (rule1 ⟨v, p, w, none⟩ tx).score else 0)
        + (if (rule2 ⟨v, p, w, none⟩ tx).is_violation then (rule2 ⟨v, p, w, none⟩ tx).score else 0)
        + (if (rule3 ⟨v, p, w, none⟩ tx).is_violation then (rule3 ⟨v, p, w, none⟩ tx).score else 0)
        + (if (rule4 ⟨v, p, w, none⟩ tx).is_violation then (rule4 ⟨v, p, w, none⟩ tx).score else 0)
    ∧ (check_transaction ⟨v, p, w, none⟩ tx).reasons =
        ([rule1 ⟨v, p, w, none⟩ tx, rule2 ⟨v, p, w, none⟩ tx,
          rule3 ⟨v, p, w, none⟩ tx, rule4 ⟨v, p, w, none⟩ tx].filter
            (fun r => r.is_violation)).map (fun r => r.reason) := by
  refine ⟨rfl, ?_, ?_⟩
  · show raw_total ⟨v, p, w, none⟩ tx = _
    unfold raw_total
    simp only [List.map, List.sum_cons, List.sum_nil]
    omega
  · rw [check_transaction_eq]
    rfl

open AnomalyEngine in
/-- C8: the reasons of every engine result are exactly the reason values of the
triggered rules, in the fixed rule-evaluation order R1..R9 given by rule_results. -/
theorem reasons_follow_rule_evaluation_order
    (e : AnomalyEngine) (tx : FuelTransaction) :
    (check_transaction e tx).reasons =
      ((rule_results e tx).filter (fun r => r.is_violation)).map (fun r => r.reason) := by
  rw [check_transaction_eq]

/-- A successful schedule parse implies the string was not empty, so the Python
truthiness test cannot have diverted the control flow to the default-hours branch. -/
theorem parseHHMM_ne_empty {a : String} {st : ℚ} (h : parseHHMM a = some st) :
    a ≠ "" := by
  intro he
  subst he
  have hn : parseHHMM "" = none := by decide
  rw [hn] at h
  cases h

/-- C4: the out-of-hours rule R1. With a missing (None or empty) schedule component it
triggers with score 25 exactly when the hour is before 6 or at least 19; with a
well-formed schedule it triggers with score 30 exactly when the time-of-day is not
within the inclusive window; with a malformed schedule string it reports no
violation — the default-hours fallback is skipped, not applied. -/
theorem out_of_hours_rule_cases (t : Datetime) (ss se : Option String) :
    ((ss = none ∨ ss = some "" ∨ se = none ∨ se = some "") →
      check_out_of_hours t ss se =
        if Datetime.hour t < 6 ∨ 19 ≤ Datetime.hour t
        then ⟨true, some .outOfHoursDefault, 25⟩ else ⟨false, none, 0⟩)
    ∧ (∀ a b st en, ss = some a → se = some b →
        parseHHMM a = some st → parseHHMM b = some en →
        check_out_of_hours t ss se =
          if ¬ (st ≤ Datetime.timeOfDay t ∧ Datetime.timeOfDay t ≤ en)
          then ⟨true, some (.outOfHoursSchedule a b), 30⟩ else ⟨false, none, 0⟩)
    ∧ (∀ a b, ss = some a → se = some b → a ≠ "" → b ≠ "" →
        parseHHMM a = none ∨ parseHHMM b = none →
        check_out_of_hours t ss se = ⟨false, none, 0⟩) := by
  refine ⟨?_, ?_, ?_⟩
  · intro h
    have hf : (strFalsy ss || strFalsy se) = true := by
      rcases h with rfl | rfl | rfl | rfl <;> simp [strFalsy]
    unfold check_out_of_hours
    rw [if_pos hf]
  · rintro a b st en rfl rfl hpa hpb
    have ha := parseHHMM_ne_empty hpa
    have hb := parseHHMM_ne_empty hpb
    have hf : (strFalsy (some a) || strFalsy (some b)) = false := by
      simp [strFalsy, ha, hb]
    unfold check_out_of_hours
    rw [if_neg (by simp [hf])]
    simp only [hpa, hpb]
  · rintro a b rfl rfl ha hb hp
    have hf : (strFalsy (some a) || strFalsy (some b)) = false := by
      simp [strFalsy, ha, hb]
    unfold check_out_of_hours
    rw [if_neg (by simp [hf])]
    rcases hp with hpa | hpb
    · simp only [hpa]
    · cases hpa : parseHHMM a <;> simp [hpa, hpb]

/-- Witness for C4: at midnight with no schedule the rule fires with score 25; at
07:00 against the schedule 08:00 to 17:00 it fires with score 30; with the malformed
schedule string the rule reports no violation. -/
theorem out_of_hours_rule_cases_witness :
    check_out_of_hours 0 none none = ⟨true, some .outOfHoursDefault, 25⟩
    ∧ check_out_of_hours 25200 (some "08:00") (some "17:00") =
        ⟨true, some (.outOfHoursSchedule "08:00" "17:00"), 30⟩
    ∧ check_out_of_hours 0 (some "8h") (some "17:00") = ⟨false, none, 0⟩ := by
  refine ⟨?_, ?_, ?_⟩
  · have h := (out_of_hours_rule_cases 0 none none).1 (Or.inl rfl)
    rw [h]
    norm_num [Datetime.hour, Datetime.timeOfDay, Datetime.midnight, Datetime.dateIdx]
  · have h := (out_of_hours_rule_cases 25200 (some "08:00") (some "17:00")).2.1
      "08:00" "17:00" 28800 61200 rfl rfl (by decide) (by decide)
    rw [h]
    norm_num [Datetime.timeOfDay, Datetime.midnight, Datetime.dateIdx]
  · exact (out_of_hours_rule_cases 0 (some "8h") (some "17:00")).2.2
      "8h" "17:00" rfl rfl (by decide) (by decide) (Or.inl (by decide))

/-- C10: with a well-formed overnight schedule, whose parsed start is strictly after
its parsed end, the inclusive containment check can never hold, so the rule reports
a violation with score 30 at every transaction time. -/
theorem overnight_schedule_always_violation (t : Datetime) (a b : String) (st en : ℚ)
    (hpa : parseHHMM a = some st) (hpb : parseHHMM b = some en) (hlt : en < st) :
    check_out_of_hours t (some a) (some b) =
      ⟨true, some (.outOfHoursSchedule a b), 30⟩ := by
  have h := (out_of_hours_rule_cases t (some a) (some b)).2.1 a b st en rfl rfl hpa hpb
  rw [h, if_pos]
  rintro ⟨h1, h2⟩
  linarith

/-- Witness for C10: the overnight schedule 22:00 to 06:00 flags a midday
transaction. -/
theorem overnight_schedule_always_violation_witness :
    check_out_of_hours 43200 (some "22:00") (some "06:00") =
      ⟨true, some (.outOfHoursSchedule "22:00" "06:00"), 30⟩ :=
  overnight_schedule_always_violation 43200 "22:00" "06:00" 79200 21600
    (by decide) (by decide) (by norm_num)

/-- C6: the weekend and holiday rule R8. On a Saturday or Sunday it triggers with
score 20 and a weekend reason, short-circuiting the holiday check; on any other day
it triggers with score 25 exactly when the date matches one of the supplied holiday
dates. -/
theorem weekend_holiday_rule_cases (t : Datetime) (hs : Option (List Datetime)) :
    ((Datetime.weekday t = 5 ∨ Datetime.weekday t = 6) →
      check_weekend_holiday t hs = ⟨true, some (.weekend (Datetime.weekday t)), 20⟩)
    ∧ (Datetime.weekday t ≠ 5 → Datetime.weekday t ≠ 6 →
      check_weekend_holiday t hs =
        if ∃ holiday ∈ hs.getD [], Datetime.dateIdx t = Datetime.dateIdx holiday
        then ⟨true, some (.holiday (Datetime.dateIdx t)), 25⟩
        else ⟨false, none, 0⟩) := by
  constructor
  · intro h
    unfold check_weekend_holiday
    rw [if_pos (by omega)]
  · intro h5 h6
    have hw : Datetime.weekday t = (Datetime.dateIdx t + 3) % 7 := rfl
    have h0 : 0 ≤ (Datetime.dateIdx t + 3) % 7 :=
      Int.emod_nonneg _ (by norm_num)
    have h7 : (Datetime.dateIdx t + 3) % 7 < 7 :=
      Int.emod_lt_of_pos _ (by norm_num)
    unfold check_weekend_holiday
    rw [if_neg (by omega)]
    by_cases hex : ∃ holiday ∈ hs.getD [], Datetime.dateIdx t = Datetime.dateIdx holiday
    · rw [if_pos hex, if_pos]
      rw [List.any_eq_true]
      obtain ⟨x, hx, he⟩ := hex
      exact ⟨x, hx, by simp [he]⟩
    · rw [if_neg hex, if_neg]
      simp only [List.any_eq_true, decide_eq_true_eq]
      rintro ⟨x, hx, he⟩
      exact hex ⟨x, hx, he⟩

/-- Witness for C6: a Saturday transaction fires the weekend branch with score 20; a
Thursday transaction fires the holiday branch with score 25 when its date is supplied
as a holiday, and reports no violation when no holidays are supplied. -/
theorem weekend_holiday_rule_cases_witness :
    check_weekend_holiday 172800 none = ⟨true, some (.weekend 5), 20⟩
    ∧ check_weekend_holiday 0 (some [0]) = ⟨true, some (.holiday 0), 25⟩
    ∧ check_weekend_holiday 0 none = ⟨false, none, 0⟩ := by
  have hw : Datetime.weekday 172800 = 5 := by
    norm_num [Datetime.weekday, Datetime.dateIdx]
  have hw0 : Datetime.weekday 0 = 3 := by
    norm_num [Datetime.weekday, Datetime.dateIdx]
  refine ⟨?_, ?_, ?_⟩
  · have h := (weekend_holiday_rule_cases 172800 none).1 (Or.inl hw)
    rw [h, hw]
  · have h := (weekend_holiday_rule_cases 0 (some [0])).2
      (by rw [hw0]; norm_num) (by rw [hw0]; norm_num)
    rw [h, if_pos ⟨0, by simp, rfl⟩]
    norm_num [Datetime.dateIdx]
  · have h := (weekend_holiday_rule_cases 0 none).2
      (by rw [hw0]; norm_num) (by rw [hw0]; norm_num)
    rw [h, if_neg]
    simp

/-- The haversine distance from a point to itself vanishes: both coordinate
differences are zero, so the sine terms, the square root and the arcsine all
collapse to zero. -/
theorem haversine_self_eq (lon lat : ℝ) : haversine lon lat lon lat = 0 := by
  simp [haversine, sub_self, Real.sin_zero, Real.sqrt_zero, Real.arcsin_zero]

/-- The haversine distance is symmetric in its two coordinate pairs: squaring
absorbs the sign of each coordinate difference and the cosine product commutes. -/
theorem haversine_swap_eq (lon1 lat1 lon2 lat2 : ℝ) :
    haversine lon1 lat1 lon2 lat2 = haversine lon2 lat2 lon1 lat1 := by
  have hs : ∀ x y : ℝ, Real.sin ((x - y) / 2) ^ 2 = Real.sin ((y - x) / 2) ^ 2 := by
    intro x y
    rw [show (x - y) / 2 = -((y - x) / 2) by ring, Real.sin_neg]
    ring
  simp only [haversine]
  rw [hs (radians lat2) (radians lat1), hs (radians lon2) (radians lon1),
    mul_comm (Real.cos (radians lat1)) (Real.cos (radians lat2))]

/-- C9: the great-circle distance of any coordinate pair with itself is zero, and the
distance is symmetric in its two coordinate pairs. -/
theorem haversine_zero_on_diagonal_and_symmetric :
    (∀ lon lat : ℝ, haversine lon lat lon lat = 0)
    ∧ (∀ lon1 lat1 lon2 lat2 : ℝ,
        haversine lon1 lat1 lon2 lat2 = haversine lon2 lat2 lon1 lat1) :=
  ⟨haversine_self_eq, haversine_swap_eq⟩

/-- C7: the impossible-travel rule R9. With any previous coordinate or time missing
it reports no violation; with full previous data and zero elapsed time it triggers
with score 45 exactly when the station distance exceeds 1 km; with nonzero elapsed
time it triggers with score 35 exactly when the required speed, distance over elapsed
hours, exceeds the maximum speed. -/
theorem consecutive_locations_rule_cases (clat clon : ℝ) (ct : Datetime)
    (plat plon : ℝ) (ptime : Datetime) (ms : ℝ) :
    (∀ plo pt, check_consecutive_locations clat clon ct none plo pt ms = ⟨false, none, 0⟩)
    ∧ (∀ pla pt, check_consecutive_locations clat clon ct pla none pt ms = ⟨false, none, 0⟩)
    ∧ (∀ pla plo, check_consecutive_locations clat clon ct pla plo none ms = ⟨false, none, 0⟩)
    ∧ (|Datetime.diffSeconds ct ptime| / 3600 = 0 →
        check_consecutive_locations clat clon ct (some plat) (some plon) (some ptime) ms =
          if 1 < haversine plon plat clon clat
          then ⟨true, some (.simultaneousTransactions (haversine plon plat clon clat)), 45⟩
          else ⟨false, none, 0⟩)
    ∧ (|Datetime.diffSeconds ct ptime| / 3600 ≠ 0 →
        check_consecutive_locations clat clon ct (some plat) (some plon) (some ptime) ms =
          if ms < haversine plon plat clon clat
              / ((|Datetime.diffSeconds ct ptime| / 3600 : ℚ) : ℝ)
          then ⟨true, some (.impossibleTravel (haversine plon plat clon clat)
              (|Datetime.diffSeconds ct ptime| / 3600)
              (haversine plon plat clon clat
                / ((|Datetime.diffSeconds ct ptime| / 3600 : ℚ) : ℝ))), 35⟩
          else ⟨false, none, 0⟩) := by
  refine ⟨fun plo pt => rfl, ?_, ?_, ?_, ?_⟩
  · intro pla pt
    cases pla <;> rfl
  · intro pla plo
    cases pla <;> cases plo <;> rfl
  · intro h
    simp only [check_consecutive_locations]
    rw [if_pos h]
  · intro h
    simp only [check_consecutive_locations]
    rw [if_neg h]

/-- Witness for C7: with no previous latitude the rule is silent; simultaneous
transactions at the same station are not flagged; and one hour between transactions
at the same station requires zero speed, below the maximum. -/
theorem consecutive_locations_rule_cases_witness :
    check_consecutive_locations 0 0 0 none (some 0) (some 0) 120 = ⟨false, none, 0⟩
    ∧ check_consecutive_locations 0 0 0 (some 0) (some 0) (some 0) 120 = ⟨false, none, 0⟩
    ∧ check_consecutive_locations 0 0 3600 (some 0) (some 0) (some 0) 120 =
        ⟨false, none, 0⟩ := by
  refine ⟨(consecutive_locations_rule_cases 0 0 0 0 0 0 120).1 (some 0) (some 0), ?_, ?_⟩
  · have h := (consecutive_locations_rule_cases 0 0 0 0 0 0 120).2.2.2.1
      (by norm_num [Datetime.diffSeconds])
    rw [h, if_neg (by rw [haversine_self_eq]; norm_num)]
  · have h := (consecutive_locations_rule_cases 0 0 3600 0 0 0 120).2.2.2.2
      (by norm_num [Datetime.diffSeconds])
    rw [h, if_neg (by rw [haversine_self_eq]; norm_num)]

/-- The frequency rule triggers exactly when the same-calendar-date count of the
supplied history reaches the threshold. -/
theorem check_transaction_frequency_viol_iff (d : Datetime) (l : List Datetime) (m : ℕ) :
    (check_transaction_frequency d l m).is_violation = true ↔
      m ≤ l.countP (fun x => decide (Datetime.dateIdx x = Datetime.dateIdx d)) := by
  unfold check_transaction_frequency
  by_cases h : m ≤ l.countP (fun x => decide (Datetime.dateIdx x = Datetime.dateIdx d))
  · rw [if_pos h]
    simp [h]
  · rw [if_neg h]
    simp [h]

/-- A row on the same calendar date as the transaction lies at or after the
midnight of the transaction, so the day-scoped fetch cannot miss it. -/
theorem midnight_le_of_same_day {t r : ℚ} (h : Datetime.dateIdx r = Datetime.dateIdx t) :
    Datetime.midnight t ≤ r := by
  unfold Datetime.midnight
  rw [← h]
  unfold Datetime.dateIdx
  have hf : ((⌊r / 86400⌋ : ℤ) : ℚ) ≤ r / 86400 := Int.floor_le _
  have h2 : (86400 : ℚ) * (r / 86400) = r := by ring
  nlinarith

/-- C3: the daily-frequency rule R7 triggers, with score 30, exactly when the
number of same-calendar-date entries in its history list reaches max-per-day; the
configured engine default is 3; and through the day-scoped fetch of the engine the
triggering condition is exactly that at least 3 stored transactions of the same
vehicle, other than the transaction itself, share its calendar date. -/
theorem frequency_rule_threshold_and_default (d : Datetime) (l : List Datetime) (m : ℕ) :
    ((check_transaction_frequency d l m).is_violation = true ↔
      m ≤ l.countP (fun x => decide (Datetime.dateIdx x = Datetime.dateIdx d)))
    ∧ ((check_transaction_frequency d l m).score =
        if m ≤ l.countP (fun x => decide (Datetime.dateIdx x = Datetime.dateIdx d))
        then 30 else 0)
    ∧ settings.max_transactions_per_day_per_vehicle = 3
    ∧ (∀ (tx : FuelTransaction) (db : List TransactionDB), tx.transaction_id ≠ "" →
        ((AnomalyEngine.rule7 tx db).is_violation = true ↔
          3 ≤ (db.filter (fun r =>
              r.vehicle_id == tx.vehicle_id
              && r.transaction_id != tx.transaction_id
              && decide (Datetime.dateIdx r.timestamp =
                  Datetime.dateIdx tx.timestamp))).length)) := by
  refine ⟨check_transaction_frequency_viol_iff d l m, ?_, rfl, ?_⟩
  · unfold check_transaction_frequency
    by_cases h : m ≤ l.countP (fun x => decide (Datetime.dateIdx x = Datetime.dateIdx d))
    · rw [if_pos h, if_pos h]
    · rw [if_neg h, if_neg h]
  · intro tx db hne
    rw [AnomalyEngine.rule7, check_transaction_frequency_viol_iff]
    have hset : settings.max_transactions_per_day_per_vehicle = 3 := rfl
    rw [hset]
    rw [List.countP_map]
    have hdt : AnomalyEngine.daily_txs tx db =
        (List.filter (fun r => r.transaction_id != tx.transaction_id)
          (List.filter (fun r => r.vehicle_id == tx.vehicle_id
            && decide (Datetime.midnight tx.timestamp ≤ r.timestamp)) db)).mergeSort
          (fun a b => decide (b.timestamp ≤ a.timestamp)) := by
      unfold AnomalyEngine.daily_txs get_recent_transactions
      simp only [if_neg hne]
    rw [hdt]
    rw [(List.mergeSort_perm _ _).countP_eq]
    rw [List.countP_filter, List.countP_filter]
    have hcong : List.countP (fun r =>
        ((fun x => decide (Datetime.dateIdx x = Datetime.dateIdx tx.timestamp)) ∘
            TransactionDB.timestamp) r
          && (r.transaction_id != tx.transaction_id)
          && (r.vehicle_id == tx.vehicle_id
              && decide (Datetime.midnight tx.timestamp ≤ r.timestamp))) db =
        List.countP (fun r =>
          r.vehicle_id == tx.vehicle_id
          && r.transaction_id != tx.transaction_id
          && decide (Datetime.dateIdx r.timestamp = Datetime.dateIdx tx.timestamp)) db := by
      refine List.countP_congr ?_
      intro r _
      simp only [Function.comp, Bool.and_eq_true, decide_eq_true_eq, bne_iff_ne, ne_eq,
        beq_iff_eq]
      constructor
      · rintro ⟨⟨hdate, hid⟩, hveh, _⟩
        exact ⟨⟨hveh, hid⟩, hdate⟩
      · rintro ⟨⟨hveh, hid⟩, hdate⟩
        exact ⟨⟨hdate, hid⟩, hveh, midnight_le_of_same_day hdate⟩
    rw [hcong, List.countP_eq_length_filter]

/-- Witness for C3: a transaction with a nonempty id and an empty history is not
flagged by the engine-level frequency rule. -/
theorem frequency_rule_threshold_and_default_witness :
    (("TX1" : String) ≠ "")
    ∧ ((AnomalyEngine.rule7 ⟨"TX1", "V1", none, 0, 50, 18, 0, 0⟩ []).is_violation = true ↔
        3 ≤ (([] : List TransactionDB).filter (fun r =>
            r.vehicle_id == "V1"
            && r.transaction_id != "TX1"
            && decide (Datetime.dateIdx r.timestamp = Datetime.dateIdx 0))).length) :=
  ⟨by decide,
    (frequency_rule_threshold_and_default 0 [] 0).2.2.2
      ⟨"TX1", "V1", none, 0, 50, 18, 0, 0⟩ [] (by decide)⟩

end FuelFaaS
